import Mathlib

/-!
Verification of the payoff-calculation engine of
`backend/app/services/payoff_calculator.py` (class `PayoffCalculatorService`).

The Python code is shallowly embedded: floats become rationals (`ℚ`),
Python `dict` parameters become association lists whose values are either
numbers or strings, and Python exceptions (`ValueError` from `float(...)`,
`ZeroDivisionError`, and the explicit `ValueError` raised for an unknown
strategy type) become an explicit `Except CalcError` result.
-/

/-- Modelled from the spec: `PayoffDataPoint` (schemas module): a pair
`{price, pnl}`, both floats, both rounded to two decimals on creation. -/
structure PayoffDataPoint where
  price : ℚ
  pnl : ℚ
deriving DecidableEq

/-- A scalar value held in the `parameters` dict: either a number or a
string (the API examples pass numeric strings such as `"18000"`). -/
inductive ParamValue where
  | num (q : ℚ)
  | str (s : String)
deriving DecidableEq

/-- The `parameters` dict of a request: an association list. -/
abbrev Params := List (String × ParamValue)

/-- The exceptions the engine can raise: the explicit
`ValueError(f"Unknown strategy type: {strategy_type}")`, the `ValueError`
raised by Python `float()` on an unconvertible string, and the
`ZeroDivisionError` from the grid step division. -/
inductive CalcError where
  | unknownStrategyType (s : String)
  | couldNotConvert (s : String)
  | zeroDivision
deriving DecidableEq

instance {ε α : Type} [DecidableEq ε] [DecidableEq α] :
    DecidableEq (Except ε α) := fun x y =>
  match x, y with
  | .ok a, .ok b =>
      if h : a = b then .isTrue (by rw [h])
      else .isFalse (by intro hc; cases hc; exact h rfl)
  | .error e, .error f =>
      if h : e = f then .isTrue (by rw [h])
      else .isFalse (by intro hc; cases hc; exact h rfl)
  | .ok _, .error _ => .isFalse (by intro hc; cases hc)
  | .error _, .ok _ => .isFalse (by intro hc; cases hc)

/-- The message carried by each exception, as CPython formats it. -/
def CalcError.message : CalcError → String
  | .unknownStrategyType s => "Unknown strategy type: " ++ s
  | .couldNotConvert s => "could not convert string to float: '" ++ s ++ "'"
  | .zeroDivision => "float division by zero"

/-- Value of a digit list read in base 10 (`'0'` has code 48). -/
def natFromDigits (cs : List Char) : ℕ :=
  cs.foldl (fun n c => 10 * n + (c.toNat - 48)) 0

/-- Modelled from the spec: Python's built-in `float()` applied to a string
(the conversion used on every `parameters.get(...)` result).  Accepts an
optional sign followed by a plain decimal literal (digits, optionally a
point and digits, at least one digit overall); anything else fails.
Exponents and specials are irrelevant to the claims and omitted. -/
def parseDecimal (s : String) : Option ℚ :=
  let core : List Char → Option ℚ := fun cs =>
    let intPart := cs.takeWhile (fun c => c.isDigit)
    let rest := cs.dropWhile (fun c => c.isDigit)
    match rest with
    | [] => if intPart.isEmpty then none else some (natFromDigits intPart)
    | '.' :: fracPart =>
        if (intPart.isEmpty && fracPart.isEmpty) || !fracPart.all (fun c => c.isDigit)
        then none
        else some ((natFromDigits intPart : ℚ) +
          (natFromDigits fracPart : ℚ) / (10 : ℚ) ^ fracPart.length)
    | _ => none
  match s.data with
  | '-' :: rest => (core rest).map (fun q => -q)
  | '+' :: rest => core rest
  | cs => core cs

/-- `float(v)`: numbers pass through, strings are parsed; an unparsable
string raises `ValueError("could not convert string to float: ...")`. -/
def pythonFloat : ParamValue → Except CalcError ℚ
  | .num q => .ok q
  | .str s =>
      match parseDecimal s with
      | some q => .ok q
      | none => .error (.couldNotConvert s)

/-- `parameters.get(key)` on the association list (first binding wins,
as in a Python dict). -/
def getVal : Params → String → Option ParamValue
  | [], _ => none
  | (k, v) :: rest, key => if k = key then some v else getVal rest key

/-- `float(parameters.get(key, default))` where `default` is already a
number (every default in the source is `underlying_price` or a literal). -/
def getParam (p : Params) (key : String) (default : ℚ) : Except CalcError ℚ :=
  match getVal p key with
  | none => .ok default
  | some v => pythonFloat v

/-- Python 3 `round` to an integer: round-half-to-even. -/
def roundHalfEven (y : ℚ) : ℤ :=
  let f := ⌊y⌋
  let frac := y - f
  if frac < 1 / 2 then f
  else if 1 / 2 < frac then f + 1
  else if f % 2 = 0 then f else f + 1

/-- `round(x, 2)` as used on every produced `price` and `pnl`. -/
def round2 (x : ℚ) : ℚ :=
  (roundHalfEven (x * 100) : ℚ) / 100

/-- `calculate_price_range(underlying_price, price_range_percent, num_points)`.
The division `(max_price - min_price) / (num_points - 1)` raises
`ZeroDivisionError` exactly when `num_points - 1 == 0`; `range(num_points)`
is empty for `num_points <= 0`. -/
def calculate_price_range (underlying_price price_range_percent : ℚ)
    (num_points : ℤ := 50) : Except CalcError (List ℚ) :=
  let min_price := underlying_price * (1 - price_range_percent / 100)
  let max_price := underlying_price * (1 + price_range_percent / 100)
  if num_points - 1 = 0 then .error .zeroDivision
  else
    let step := (max_price - min_price) / ((num_points - 1 : ℤ) : ℚ)
    .ok ((List.range num_points.toNat).map (fun (i : ℕ) => min_price + step * (i : ℚ)))

/-- The grid every strategy calculator uses: `calculate_price_range` at its
default `num_points = 50`, where the division never raises. -/
def price_points_50 (underlying_price price_range_percent : ℚ) : List ℚ :=
  let min_price := underlying_price * (1 - price_range_percent / 100)
  let max_price := underlying_price * (1 + price_range_percent / 100)
  let step := (max_price - min_price) / ((49 : ℤ) : ℚ)
  (List.range 50).map (fun (i : ℕ) => min_price + step * (i : ℚ))

/-- The parameters extracted at the head of `calculate_covered_call`. -/
structure CoveredCallParams where
  futures_price : ℚ
  call_strike : ℚ
  premium : ℚ
  futures_lot_size : ℚ
  call_lot_size : ℚ
deriving DecidableEq

/-- Parameter extraction of `calculate_covered_call`, in source order. -/
def coveredCallParams (p : Params) (underlying_price : ℚ) :
    Except CalcError CoveredCallParams := do
  let futures_price ← getParam p "futuresPrice" underlying_price
  let call_strike ← getParam p "callStrike" (underlying_price + 500)
  let premium ← getParam p "premium" 200
  let futures_lot_size ← getParam p "futuresLotSize" 50
  let call_lot_size ← getParam p "callLotSize" 50
  pure ⟨futures_price, call_strike, premium, futures_lot_size, call_lot_size⟩

/-- The per-price P&L of the covered call (body of the `for price` loop). -/
def coveredCallPnl (ps : CoveredCallParams) (price : ℚ) : ℚ :=
  let futures_pnl := (price - ps.futures_price) * ps.futures_lot_size
  let call_pnl :=
    if price ≤ ps.call_strike then ps.premium * ps.call_lot_size
    else (ps.premium - (price - ps.call_strike)) * ps.call_lot_size
  futures_pnl + call_pnl

/-- `calculate_covered_call`. -/
def calculate_covered_call (parameters : Params)
    (underlying_price price_range_percent : ℚ) :
    Except CalcError (List PayoffDataPoint) :=
  match coveredCallParams parameters underlying_price with
  | .error e => .error e
  | .ok ps =>
      .ok ((price_points_50 underlying_price price_range_percent).map
        (fun price => ⟨round2 price, round2 (coveredCallPnl ps price)⟩))

/-- The parameters extracted at the head of `calculate_bull_call_spread`. -/
structure BullCallSpreadParams where
  long_call_strike : ℚ
  short_call_strike : ℚ
  long_call_premium : ℚ
  short_call_premium : ℚ
  lot_size : ℚ
deriving DecidableEq

/-- Parameter extraction of `calculate_bull_call_spread`, in source order. -/
def bullCallSpreadParams (p : Params) (underlying_price : ℚ) :
    Except CalcError BullCallSpreadParams := do
  let long_call_strike ← getParam p "longCallStrike" underlying_price
  let short_call_strike ← getParam p "shortCallStrike" (underlying_price + 1000)
  let long_call_premium ← getParam p "longCallPremium" 300
  let short_call_premium ← getParam p "shortCallPremium" 150
  let lot_size ← getParam p "lotSize" 50
  pure ⟨long_call_strike, short_call_strike, long_call_premium, short_call_premium, lot_size⟩

/-- The per-price P&L of the bull call spread. -/
def bullCallSpreadPnl (ps : BullCallSpreadParams) (price : ℚ) : ℚ :=
  let long_call_pnl :=
    if price ≤ ps.long_call_strike then -ps.long_call_premium
    else (price - ps.long_call_strike) - ps.long_call_premium
  let short_call_pnl :=
    if price ≤ ps.short_call_strike then ps.short_call_premium
    else ps.short_call_premium - (price - ps.short_call_strike)
  (long_call_pnl + short_call_pnl) * ps.lot_size

/-- `calculate_bull_call_spread`. -/
def calculate_bull_call_spread (parameters : Params)
    (underlying_price price_range_percent : ℚ) :
    Except CalcError (List PayoffDataPoint) :=
  match bullCallSpreadParams parameters underlying_price with
  | .error e => .error e
  | .ok ps =>
      .ok ((price_points_50 underlying_price price_range_percent).map
        (fun price => ⟨round2 price, round2 (bullCallSpreadPnl ps price)⟩))

/-- The parameters extracted at the head of `calculate_iron_condor`. -/
structure IronCondorParams where
  lot_size : ℚ
  put_buy_strike : ℚ
  put_sell_strike : ℚ
  call_sell_strike : ℚ
  call_buy_strike : ℚ
  net_premium : ℚ
deriving DecidableEq

/-- Parameter extraction of `calculate_iron_condor`, in source order. -/
def ironCondorParams (p : Params) (underlying_price : ℚ) :
    Except CalcError IronCondorParams := do
  let lot_size ← getParam p "lotSize" 50
  let put_buy_strike ← getParam p "putBuyStrike" (underlying_price - 1000)
  let put_sell_strike ← getParam p "putSellStrike" (underlying_price - 500)
  let call_sell_strike ← getParam p "callSellStrike" (underlying_price + 500)
  let call_buy_strike ← getParam p "callBuyStrike" (underlying_price + 1000)
  let net_premium ← getParam p "netPremium" 100
  pure ⟨lot_size, put_buy_strike, put_sell_strike, call_sell_strike, call_buy_strike, net_premium⟩

/-- The per-price P&L of the iron condor (the two `if`/`elif` chains of the
source, applied to the running `pnl` that starts at `net_premium`). -/
def ironCondorPnl (ps : IronCondorParams) (price : ℚ) : ℚ :=
  let pnl := ps.net_premium
  let pnl :=
    if price < ps.put_buy_strike then
      pnl - ((ps.put_buy_strike - price) - (ps.put_sell_strike - price))
    else if price < ps.put_sell_strike then pnl - (ps.put_sell_strike - price)
    else pnl
  let pnl :=
    if ps.call_buy_strike < price then
      pnl - ((price - ps.call_buy_strike) - (price - ps.call_sell_strike))
    else if ps.call_sell_strike < price then pnl - (price - ps.call_sell_strike)
    else pnl
  pnl * ps.lot_size

/-- `calculate_iron_condor`. -/
def calculate_iron_condor (parameters : Params)
    (underlying_price price_range_percent : ℚ) :
    Except CalcError (List PayoffDataPoint) :=
  match ironCondorParams parameters underlying_price with
  | .error e => .error e
  | .ok ps =>
      .ok ((price_points_50 underlying_price price_range_percent).map
        (fun price => ⟨round2 price, round2 (ironCondorPnl ps price)⟩))

/-- The parameters extracted at the head of `calculate_long_straddle`. -/
structure LongStraddleParams where
  strike : ℚ
  call_premium : ℚ
  put_premium : ℚ
  lot_size : ℚ
deriving DecidableEq

/-- Parameter extraction of `calculate_long_straddle`, in source order. -/
def longStraddleParams (p : Params) (underlying_price : ℚ) :
    Except CalcError LongStraddleParams := do
  let strike ← getParam p "strike" underlying_price
  let call_premium ← getParam p "callPremium" 300
  let put_premium ← getParam p "putPremium" 300
  let lot_size ← getParam p "lotSize" 50
  pure ⟨strike, call_premium, put_premium, lot_size⟩

/-- The per-price P&L of the long straddle. -/
def longStraddlePnl (ps : LongStraddleParams) (price : ℚ) : ℚ :=
  let call_pnl := max 0 (price - ps.strike) - ps.call_premium
  let put_pnl := max 0 (ps.strike - price) - ps.put_premium
  (call_pnl + put_pnl) * ps.lot_size

/-- `calculate_long_straddle`. -/
def calculate_long_straddle (parameters : Params)
    (underlying_price price_range_percent : ℚ) :
    Except CalcError (List PayoffDataPoint) :=
  match longStraddleParams parameters underlying_price with
  | .error e => .error e
  | .ok ps =>
      .ok ((price_points_50 underlying_price price_range_percent).map
        (fun price => ⟨round2 price, round2 (longStraddlePnl ps price)⟩))

/-- The parameters extracted at the head of `calculate_protective_put`. -/
structure ProtectivePutParams where
  stock_price : ℚ
  put_strike : ℚ
  put_premium : ℚ
  lot_size : ℚ
deriving DecidableEq

/-- Parameter extraction of `calculate_protective_put`, in source order. -/
def protectivePutParams (p : Params) (underlying_price : ℚ) :
    Except CalcError ProtectivePutParams := do
  let stock_price ← getParam p "stockPrice" underlying_price
  let put_strike ← getParam p "putStrike" (underlying_price - 500)
  let put_premium ← getParam p "putPremium" 200
  let lot_size ← getParam p "lotSize" 50
  pure ⟨stock_price, put_strike, put_premium, lot_size⟩

/-- The per-price P&L of the protective put. -/
def protectivePutPnl (ps : ProtectivePutParams) (price : ℚ) : ℚ :=
  let stock_pnl := price - ps.stock_price
  let put_pnl := max 0 (ps.put_strike - price) - ps.put_premium
  (stock_pnl + put_pnl) * ps.lot_size

/-- `calculate_protective_put`. -/
def calculate_protective_put (parameters : Params)
    (underlying_price price_range_percent : ℚ) :
    Except CalcError (List PayoffDataPoint) :=
  match protectivePutParams parameters underlying_price with
  | .error e => .error e
  | .ok ps =>
      .ok ((price_points_50 underlying_price price_range_percent).map
        (fun price => ⟨round2 price, round2 (protectivePutPnl ps price)⟩))

/-- The parameters extracted at the head of `calculate_butterfly_spread`. -/
structure ButterflySpreadParams where
  lower_strike : ℚ
  middle_strike : ℚ
  upper_strike : ℚ
  lower_premium : ℚ
  middle_premium : ℚ
  upper_premium : ℚ
  lot_size : ℚ
deriving DecidableEq

/-- Parameter extraction of `calculate_butterfly_spread`, in source order. -/
def butterflySpreadParams (p : Params) (underlying_price : ℚ) :
    Except CalcError ButterflySpreadParams := do
  let lower_strike ← getParam p "lowerStrike" (underlying_price - 500)
  let middle_strike ← getParam p "middleStrike" underlying_price
  let upper_strike ← getParam p "upperStrike" (underlying_price + 500)
  let lower_premium ← getParam p "lowerPremium" 300
  let middle_premium ← getParam p "middlePremium" 200
  let upper_premium ← getParam p "upperPremium" 100
  let lot_size ← getParam p "lotSize" 50
  pure ⟨lower_strike, middle_strike, upper_strike, lower_premium, middle_premium,
    upper_premium, lot_size⟩

/-- The per-price P&L of the butterfly spread. -/
def butterflySpreadPnl (ps : ButterflySpreadParams) (price : ℚ) : ℚ :=
  let lower_pnl := max 0 (price - ps.lower_strike) - ps.lower_premium
  let middle_pnl := (ps.middle_premium - max 0 (price - ps.middle_strike)) * 2
  let upper_pnl := max 0 (price - ps.upper_strike) - ps.upper_premium
  (lower_pnl + middle_pnl + upper_pnl) * ps.lot_size

/-- `calculate_butterfly_spread`. -/
def calculate_butterfly_spread (parameters : Params)
    (underlying_price price_range_percent : ℚ) :
    Except CalcError (List PayoffDataPoint) :=
  match butterflySpreadParams parameters underlying_price with
  | .error e => .error e
  | .ok ps =>
      .ok ((price_points_50 underlying_price price_range_percent).map
        (fun price => ⟨round2 price, round2 (butterflySpreadPnl ps price)⟩))

/-- One leg dict of a custom strategy: `leg.get(...)` yields `none` for a
missing key.  Numeric fields are held as already-converted numbers (the
`float(...)` coercion is the identity on the numbers the claims range
over). -/
structure Leg where
  type : Option String := none
  action : Option String := none
  lotSize : Option ℚ := none
  entryPrice : Option ℚ := none
  strike : Option ℚ := none
  premium : Option ℚ := none
deriving DecidableEq

/-- The per-leg P&L (body of the inner `for leg` loop of
`calculate_custom_strategy`): an unrecognized or missing `type` falls into
the options branch and then into the PE case; any `action` other than
`"BUY"` is the SELL case; `lotSize` defaults to `0`. -/
def legPnl (underlying_price price : ℚ) (leg : Leg) : ℚ :=
  let lot_size := leg.lotSize.getD 0
  if leg.type = some "FUT" then
    let entry_price := leg.entryPrice.getD underlying_price
    if leg.action = some "BUY" then (price - entry_price) * lot_size
    else (entry_price - price) * lot_size
  else
    let strike := leg.strike.getD underlying_price
    let premium := leg.premium.getD 0
    let intrinsic :=
      if leg.type = some "CE" then max 0 (price - strike)
      else max 0 (strike - price)
    if leg.action = some "BUY" then (intrinsic - premium) * lot_size
    else (premium - intrinsic) * lot_size

/-- `calculate_custom_strategy`: for each grid price, fold the legs into a
running `total_pnl` starting at `0`. -/
def calculate_custom_strategy (custom_legs : List Leg)
    (underlying_price price_range_percent : ℚ) : List PayoffDataPoint :=
  (price_points_50 underlying_price price_range_percent).map (fun price =>
    let total_pnl :=
      custom_legs.foldl (fun acc leg => acc + legPnl underlying_price price leg) 0
    ⟨round2 price, round2 total_pnl⟩)

/-- `calculate_payoff`: the dispatcher.  `parameters=None` becomes `{}`;
the `custom-strategy` branch returns `[]` when `custom_legs` is `None` or
empty (`if not custom_legs`); otherwise the strategy table is consulted and
a miss raises `ValueError(f"Unknown strategy type: {strategy_type}")`. -/
def calculate_payoff (strategy_type : String) (parameters : Option Params)
    (underlying_price price_range_percent : ℚ)
    (custom_legs : Option (List Leg) := none) :
    Except CalcError (List PayoffDataPoint) :=
  let ps := parameters.getD []
  if strategy_type = "custom-strategy" then
    match custom_legs.getD [] with
    | [] => .ok []
    | leg :: rest =>
        .ok (calculate_custom_strategy (leg :: rest) underlying_price price_range_percent)
  else if strategy_type = "covered-call" then
    calculate_covered_call ps underlying_price price_range_percent
  else if strategy_type = "bull-call-spread" then
    calculate_bull_call_spread ps underlying_price price_range_percent
  else if strategy_type = "iron-condor" then
    calculate_iron_condor ps underlying_price price_range_percent
  else if strategy_type = "long-straddle" then
    calculate_long_straddle ps underlying_price price_range_percent
  else if strategy_type = "protective-put" then
    calculate_protective_put ps underlying_price price_range_percent
  else if strategy_type = "butterfly-spread" then
    calculate_butterfly_spread ps underlying_price price_range_percent
  else .error (.unknownStrategyType strategy_type)

/-- The seven strategy identifiers the dispatcher recognizes. -/
def knownStrategyTypes : List String :=
  ["covered-call", "bull-call-spread", "iron-condor", "long-straddle",
   "protective-put", "butterfly-spread", "custom-strategy"]

/-- The six fixed-strategy identifiers (the keys of `strategy_calculators`). -/
def fixedStrategyTypes : List String :=
  ["covered-call", "bull-call-spread", "iron-condor", "long-straddle",
   "protective-put", "butterfly-spread"]

/-- Sliding substring check on character lists, used to state what an error
message does or does not mention. -/
def containsSeq (pat : List Char) : List Char → Bool
  | [] => pat.isEmpty
  | c :: rest => pat.isPrefixOf (c :: rest) || containsSeq pat rest

section Helpers

/-- `calculate_price_range` at its default `num_points = 50` never raises and
produces `price_points_50`. -/
theorem calculate_price_range_fifty (u r : ℚ) :
    calculate_price_range u r 50 = .ok (price_points_50 u r) := rfl

/-- The grid always has 50 points. -/
theorem price_points_50_length (u r : ℚ) : (price_points_50 u r).length = 50 := by
  simp only [price_points_50, List.length_map, List.length_range]

theorem except_bind_error {α β : Type} {x : Except CalcError α}
    {f : α → Except CalcError β} {e : CalcError} (h : x >>= f = .error e) :
    x = .error e ∨ ∃ a, x = .ok a ∧ f a = .error e := by
  cases x with
  | error e0 =>
      left
      cases h
      rfl
  | ok a =>
      right
      exact ⟨a, rfl, h⟩

/-- A failed `float()` conversion always reports `couldNotConvert`. -/
theorem pythonFloat_error {v : ParamValue} {e : CalcError}
    (h : pythonFloat v = .error e) : ∃ s, e = .couldNotConvert s := by
  cases v with
  | num q => cases h
  | str s =>
      simp only [pythonFloat] at h
      rcases hp : parseDecimal s with _ | q <;> rw [hp] at h
      · cases h
        exact ⟨s, rfl⟩
      · cases h

/-- A failed parameter extraction is always a `float()` conversion error. -/
theorem getParam_error {p : Params} {k : String} {d : ℚ} {e : CalcError}
    (h : getParam p k d = .error e) : ∃ s, e = .couldNotConvert s := by
  unfold getParam at h
  split at h
  · cases h
  · exact pythonFloat_error h

end Helpers

/-- C1: for `underlyingPrice > 0`, `rangePercent > 0` and integer
`pointCount ≥ 2`, `calculate_price_range` returns exactly `pointCount`
strictly increasing values, the `i`-th (0-based) being
`minPrice + step·i` with `minPrice = U·(1 − r/100)`,
`maxPrice = U·(1 + r/100)` and `step = (maxPrice − minPrice)/(pointCount − 1)`;
the first value is `minPrice` and the last is `maxPrice`. -/
theorem C1_price_range_grid (u r : ℚ) (n : ℤ) (hu : 0 < u) (hr : 0 < r)
    (hn : 2 ≤ n) (l : List ℚ) (hl : calculate_price_range u r n = .ok l) :
    (l.length : ℤ) = n ∧ l.Pairwise (· < ·) ∧
    (∀ i : Fin l.length,
      l.get i = u * (1 - r / 100) +
        (u * (1 + r / 100) - u * (1 - r / 100)) / ((n : ℚ) - 1) * ((i : ℕ) : ℚ)) ∧
    l.head? = some (u * (1 - r / 100)) ∧
    l.getLast? = some (u * (1 + r / 100)) := by
  have hne : ¬(n - 1 = 0) := by omega
  simp only [calculate_price_range, if_neg hne, Except.ok.injEq] at hl
  subst hl
  have hcast : (((n - 1 : ℤ)) : ℚ) = (n : ℚ) - 1 := by push_cast; ring
  have hden : (0 : ℚ) < (n : ℚ) - 1 := by
    have h2 : (2 : ℚ) ≤ (n : ℚ) := by exact_mod_cast hn
    linarith
  have hstep : (0 : ℚ) <
      (u * (1 + r / 100) - u * (1 - r / 100)) / ((n : ℚ) - 1) := by
    apply div_pos _ hden
    have : u * (1 + r / 100) - u * (1 - r / 100) = u * (r / 50) := by ring
    rw [this]
    positivity
  have hm : ((n.toNat : ℤ)) = n := Int.toNat_of_nonneg (by omega)
  have hmq : ((n.toNat : ℕ) : ℚ) = (n : ℚ) := by exact_mod_cast hm
  refine ⟨?_, ?_, ?_, ?_, ?_⟩
  · simp only [List.length_map, List.length_range]
    exact hm
  · rw [List.pairwise_map]
    refine (List.pairwise_lt_range n.toNat).imp ?_
    intro a b hab
    have hq : (a : ℚ) < (b : ℚ) := by exact_mod_cast hab
    have := mul_lt_mul_of_pos_left hq
      (show (0:ℚ) < (u * (1 + r / 100) - u * (1 - r / 100)) / (((n - 1 : ℤ)) : ℚ) by
        rw [hcast]; exact hstep)
    linarith
  · intro i
    simp only [List.get_eq_getElem, List.getElem_map, List.getElem_range, hcast]
  · have h1 : ∃ k, n.toNat = k + 1 := ⟨n.toNat - 1, by omega⟩
    obtain ⟨k, hk⟩ := h1
    rw [hk, List.range_succ_eq_map, List.map_cons, List.head?_cons]
    norm_num
  · rw [List.getLast?_eq_getElem?]
    have hlen : ((List.range n.toNat).map
        (fun (i : ℕ) => u * (1 - r / 100) +
          (u * (1 + r / 100) - u * (1 - r / 100)) / (((n - 1 : ℤ)) : ℚ) * (i : ℚ))).length
        = n.toNat := by
      simp only [List.length_map, List.length_range]
    have hidx : n.toNat - 1 < ((List.range n.toNat).map
        (fun (i : ℕ) => u * (1 - r / 100) +
          (u * (1 + r / 100) - u * (1 - r / 100)) / (((n - 1 : ℤ)) : ℚ) * (i : ℚ))).length := by
      rw [hlen]; omega
    rw [hlen, List.getElem?_eq_getElem hidx]
    simp only [List.getElem_map, List.getElem_range, Option.some.injEq, hcast]
    have hfrac : (((n.toNat - 1 : ℕ)) : ℚ) = (n : ℚ) - 1 := by
      have h1 : (1 : ℕ) ≤ n.toNat := by omega
      push_cast [Nat.cast_sub h1]
      rw [hmq]
    rw [hfrac, div_mul_cancel₀]
    · ring
    · exact ne_of_gt hden

/-- Witness for C1 at `u = 100`, `r = 10`, `n = 3`: the grid is
`[90, 100, 110]`. -/
theorem C1_price_range_grid_witness :
    ((([90, 100, 110] : List ℚ).length : ℤ) = 3 ∧
    ([90, 100, 110] : List ℚ).Pairwise (· < ·) ∧
    (∀ i : Fin ([90, 100, 110] : List ℚ).length,
      ([90, 100, 110] : List ℚ).get i = 100 * (1 - 10 / 100) +
        (100 * (1 + 10 / 100) - 100 * (1 - 10 / 100)) / (((3 : ℤ) : ℚ) - 1) * ((i : ℕ) : ℚ)) ∧
    ([90, 100, 110] : List ℚ).head? = some (100 * (1 - 10 / 100)) ∧
    ([90, 100, 110] : List ℚ).getLast? = some (100 * (1 + 10 / 100))) :=
  C1_price_range_grid 100 10 3 (by norm_num) (by norm_num) (by norm_num) _ (by
    have h : Int.toNat 3 = 3 := rfl
    norm_num [calculate_price_range, h, List.range_succ])

/-- Bind on a successful `Except` computes the continuation. -/
theorem exceptOkBind {ε α β : Type} (a : α) (f : α → Except ε β) :
    (Except.ok a >>= f : Except ε β) = f a := rfl

/-- `pure` on `Except` is `.ok`. -/
theorem exceptPure {ε α : Type} (a : α) : (pure a : Except ε α) = .ok a := rfl

/-- C2: `calculate_covered_call` maps every grid price to
`pnl = futPnl + callPnl`, `futPnl = (price − futuresPrice)·futuresLotSize`,
`callPnl = premium·callLotSize` when `price ≤ callStrike` (tie inclusive)
and `(premium − (price − callStrike))·callLotSize` otherwise; with
`futuresPrice = 18000`, `callStrike = 18500`, `premium = 200` and both lot
sizes `50`, the per-price P&L at `price = 18500` is exactly `35000`. -/
theorem C2_covered_call_formula (p : Params) (u r : ℚ) (ps : CoveredCallParams)
    (h : coveredCallParams p u = .ok ps) :
    calculate_covered_call p u r = .ok ((price_points_50 u r).map (fun price =>
      ⟨round2 price,
       round2 ((price - ps.futures_price) * ps.futures_lot_size +
         (if price ≤ ps.call_strike then ps.premium * ps.call_lot_size
          else (ps.premium - (price - ps.call_strike)) * ps.call_lot_size))⟩)) ∧
    coveredCallPnl ⟨18000, 18500, 200, 50, 50⟩ 18500 = 35000 := by
  constructor
  · unfold calculate_covered_call
    rw [h]
    rfl
  · norm_num [coveredCallPnl]

/-- Witness for C2 at the default parameters (`parameters = {}`,
`underlyingPrice = 18000`, `rangePercent = 30`). -/
theorem C2_covered_call_formula_witness :
    (calculate_covered_call [] 18000 30 = .ok ((price_points_50 18000 30).map (fun price =>
      ⟨round2 price,
       round2 ((price - (18000 : ℚ)) * 50 +
         (if price ≤ (18500 : ℚ) then (200 : ℚ) * 50
          else ((200 : ℚ) - (price - 18500)) * 50))⟩)) ∧
    coveredCallPnl ⟨18000, 18500, 200, 50, 50⟩ 18500 = 35000) :=
  C2_covered_call_formula [] 18000 30 ⟨18000, 18500, 200, 50, 50⟩ (by
    simp [coveredCallParams, getParam, getVal, exceptOkBind, exceptPure]
    norm_num)

/-- C3: `calculate_iron_condor` maps every grid price to
`(netPremium − putSpreadLoss − callSpreadLoss)·lotSize`, where the put side
subtracts `(putBuyStrike−price)−(putSellStrike−price)` below `putBuyStrike`,
`putSellStrike−price` below `putSellStrike`, else nothing, and the call side
symmetrically above `callBuyStrike`/`callSellStrike` (prices equal to any
strike keep the non-breached branch); with an empty parameter dict the
defaults are `putBuyStrike = U−1000`, `putSellStrike = U−500`,
`callSellStrike = U+500`, `callBuyStrike = U+1000`, `netPremium = 100`,
`lotSize = 50`. -/
theorem C3_iron_condor_formula (p : Params) (u r : ℚ) (ps : IronCondorParams)
    (h : ironCondorParams p u = .ok ps) :
    calculate_iron_condor p u r = .ok ((price_points_50 u r).map (fun price =>
      ⟨round2 price,
       round2 ((ps.net_premium
         - (if price < ps.put_buy_strike then
              (ps.put_buy_strike - price) - (ps.put_sell_strike - price)
            else if price < ps.put_sell_strike then ps.put_sell_strike - price
            else 0)
         - (if ps.call_buy_strike < price then
              (price - ps.call_buy_strike) - (price - ps.call_sell_strike)
            else if ps.call_sell_strike < price then price - ps.call_sell_strike
            else 0)) * ps.lot_size)⟩)) ∧
    ironCondorParams [] u = .ok ⟨50, u - 1000, u - 500, u + 500, u + 1000, 100⟩ := by
  constructor
  · unfold calculate_iron_condor
    rw [h]
    refine congrArg _ (List.map_congr_left ?_)
    intro price _
    have hp : ironCondorPnl ps price =
        (ps.net_premium
         - (if price < ps.put_buy_strike then
              (ps.put_buy_strike - price) - (ps.put_sell_strike - price)
            else if price < ps.put_sell_strike then ps.put_sell_strike - price
            else 0)
         - (if ps.call_buy_strike < price then
              (price - ps.call_buy_strike) - (price - ps.call_sell_strike)
            else if ps.call_sell_strike < price then price - ps.call_sell_strike
            else 0)) * ps.lot_size := by
      simp only [ironCondorPnl]
      split_ifs <;> ring
    rw [hp]
  · rfl

/-- Witness for C3 at `parameters = {}`, `U = 18000`, `rangePercent = 30`
(defaults `⟨50, 17000, 17500, 18500, 19000, 100⟩`). -/
theorem C3_iron_condor_formula_witness :
    (calculate_iron_condor [] 18000 30 = .ok ((price_points_50 18000 30).map (fun price =>
      ⟨round2 price,
       round2 (((100 : ℚ)
         - (if price < (17000 : ℚ) then ((17000 : ℚ) - price) - ((17500 : ℚ) - price)
            else if price < (17500 : ℚ) then (17500 : ℚ) - price
            else 0)
         - (if (19000 : ℚ) < price then (price - (19000 : ℚ)) - (price - (18500 : ℚ))
            else if (18500 : ℚ) < price then price - (18500 : ℚ)
            else 0)) * 50)⟩)) ∧
    ironCondorParams [] 18000 = .ok ⟨50, 18000 - 1000, 18000 - 500, 18000 + 500, 18000 + 1000, 100⟩) :=
  C3_iron_condor_formula [] 18000 30 ⟨50, 17000, 17500, 18500, 19000, 100⟩ (by
    simp [ironCondorParams, getParam, getVal, exceptOkBind, exceptPure]
    norm_num)

/-- C4: for a non-empty leg list, the per-price P&L of
`calculate_custom_strategy` is the sum over the legs of `legPnl` (futures
legs linear in `price − entryPrice`, option legs intrinsic-minus-premium,
SELL negating, with the documented defaults), so permuting the leg list
never changes the result. -/
theorem C4_custom_legs_additive (legs legs2 : List Leg) (u r : ℚ)
    (hne : legs ≠ []) (hperm : legs.Perm legs2) :
    calculate_custom_strategy legs u r = (price_points_50 u r).map (fun price =>
      ⟨round2 price, round2 ((legs.map (legPnl u price)).sum)⟩) ∧
    calculate_custom_strategy legs u r = calculate_custom_strategy legs2 u r := by
  have key : ∀ (L : List Leg) (price : ℚ),
      L.foldl (fun acc leg => acc + legPnl u price leg) 0 =
        (L.map (legPnl u price)).sum := by
    intro L price
    rw [List.sum_eq_foldl, List.foldl_map]
  constructor
  · simp only [calculate_custom_strategy]
    refine List.map_congr_left ?_
    intro price _
    rw [key]
  · simp only [calculate_custom_strategy]
    refine List.map_congr_left ?_
    intro price _
    rw [key, key, (hperm.map (legPnl u price)).sum_eq]

/-- Witness for C4: a bought future and a sold call, in both orders, at
`U = 18000`, `rangePercent = 30`. -/
theorem C4_custom_legs_additive_witness :
    (calculate_custom_strategy
      [⟨some "FUT", some "BUY", some 50, some 18000, none, none⟩,
       ⟨some "CE", some "SELL", some 50, none, some 18500, some 200⟩] 18000 30 =
      (price_points_50 18000 30).map (fun price =>
        ⟨round2 price,
         round2 (([⟨some "FUT", some "BUY", some 50, some 18000, none, none⟩,
           ⟨some "CE", some "SELL", some 50, none, some 18500, some 200⟩].map
             (legPnl 18000 price)).sum)⟩) ∧
    calculate_custom_strategy
      [⟨some "FUT", some "BUY", some 50, some 18000, none, none⟩,
       ⟨some "CE", some "SELL", some 50, none, some 18500, some 200⟩] 18000 30 =
    calculate_custom_strategy
      [⟨some "CE", some "SELL", some 50, none, some 18500, some 200⟩,
       ⟨some "FUT", some "BUY", some 50, some 18000, none, none⟩] 18000 30) :=
  C4_custom_legs_additive _ _ 18000 30 (by simp) (List.Perm.swap _ _ _)

/-- C5 counterexample: the custom-leg evaluator itself does not return an
empty sequence on an empty leg list — it returns the full 50-point grid. -/
theorem C5_empty_legs_counterexample :
    calculate_custom_strategy [] 18000 30 ≠ [] ∧
    (calculate_custom_strategy [] 18000 30).length = 50 := by
  have hlen : (calculate_custom_strategy [] 18000 30).length = 50 := by
    simp only [calculate_custom_strategy, List.length_map]
    exact price_points_50_length 18000 30
  refine ⟨?_, hlen⟩
  intro h
  rw [h] at hlen
  exact absurd hlen (by decide)

/-- C5 (amended): `calculate_payoff` with `strategyType = "custom-strategy"`
and no legs (`None` or the empty list) returns the empty list, not an
error; the empty-legs guard lives in the dispatcher, while the evaluator
`calculate_custom_strategy` itself maps the whole 50-point grid, giving
`pnl = 0` at every grid price for an empty leg list. -/
theorem C5_empty_legs_amended (u r : ℚ) (p : Option Params) :
    calculate_payoff "custom-strategy" p u r none = .ok [] ∧
    calculate_payoff "custom-strategy" p u r (some []) = .ok [] ∧
    calculate_custom_strategy [] u r =
      (price_points_50 u r).map (fun price => ⟨round2 price, 0⟩) := by
  refine ⟨rfl, rfl, ?_⟩
  simp only [calculate_custom_strategy]
  refine List.map_congr_left ?_
  intro price _
  simp only [List.foldl_nil]
  norm_num [round2, roundHalfEven]

theorem coveredCallParams_error {p : Params} {u : ℚ} {e : CalcError}
    (h : coveredCallParams p u = .error e) : ∃ s, e = .couldNotConvert s := by
  unfold coveredCallParams at h
  rcases except_bind_error h with h | ⟨_, _, h⟩
  · exact getParam_error h
  rcases except_bind_error h with h | ⟨_, _, h⟩
  · exact getParam_error h
  rcases except_bind_error h with h | ⟨_, _, h⟩
  · exact getParam_error h
  rcases except_bind_error h with h | ⟨_, _, h⟩
  · exact getParam_error h
  rcases except_bind_error h with h | ⟨_, _, h⟩
  · exact getParam_error h
  cases h

theorem bullCallSpreadParams_error {p : Params} {u : ℚ} {e : CalcError}
    (h : bullCallSpreadParams p u = .error e) : ∃ s, e = .couldNotConvert s := by
  unfold bullCallSpreadParams at h
  rcases except_bind_error h with h | ⟨_, _, h⟩
  · exact getParam_error h
  rcases except_bind_error h with h | ⟨_, _, h⟩
  · exact getParam_error h
  rcases except_bind_error h with h | ⟨_, _, h⟩
  · exact getParam_error h
  rcases except_bind_error h with h | ⟨_, _, h⟩
  · exact getParam_error h
  rcases except_bind_error h with h | ⟨_, _, h⟩
  · exact getParam_error h
  cases h

theorem ironCondorParams_error {p : Params} {u : ℚ} {e : CalcError}
    (h : ironCondorParams p u = .error e) : ∃ s, e = .couldNotConvert s := by
  unfold ironCondorParams at h
  rcases except_bind_error h with h | ⟨_, _, h⟩
  · exact getParam_error h
  rcases except_bind_error h with h | ⟨_, _, h⟩
  · exact getParam_error h
  rcases except_bind_error h with h | ⟨_, _, h⟩
  · exact getParam_error h
  rcases except_bind_error h with h | ⟨_, _, h⟩
  · exact getParam_error h
  rcases except_bind_error h with h | ⟨_, _, h⟩
  · exact getParam_error h
  rcases except_bind_error h with h | ⟨_, _, h⟩
  · exact getParam_error h
  cases h

theorem longStraddleParams_error {p : Params} {u : ℚ} {e : CalcError}
    (h : longStraddleParams p u = .error e) : ∃ s, e = .couldNotConvert s := by
  unfold longStraddleParams at h
  rcases except_bind_error h with h | ⟨_, _, h⟩
  · exact getParam_error h
  rcases except_bind_error h with h | ⟨_, _, h⟩
  · exact getParam_error h
  rcases except_bind_error h with h | ⟨_, _, h⟩
  · exact getParam_error h
  rcases except_bind_error h with h | ⟨_, _, h⟩
  · exact getParam_error h
  cases h

theorem protectivePutParams_error {p : Params} {u : ℚ} {e : CalcError}
    (h : protectivePutParams p u = .error e) : ∃ s, e = .couldNotConvert s := by
  unfold protectivePutParams at h
  rcases except_bind_error h with h | ⟨_, _, h⟩
  · exact getParam_error h
  rcases except_bind_error h with h | ⟨_, _, h⟩
  · exact getParam_error h
  rcases except_bind_error h with h | ⟨_, _, h⟩
  · exact getParam_error h
  rcases except_bind_error h with h | ⟨_, _, h⟩
  · exact getParam_error h
  cases h

theorem butterflySpreadParams_error {p : Params} {u : ℚ} {e : CalcError}
    (h : butterflySpreadParams p u = .error e) : ∃ s, e = .couldNotConvert s := by
  unfold butterflySpreadParams at h
  rcases except_bind_error h with h | ⟨_, _, h⟩
  · exact getParam_error h
  rcases except_bind_error h with h | ⟨_, _, h⟩
  · exact getParam_error h
  rcases except_bind_error h with h | ⟨_, _, h⟩
  · exact getParam_error h
  rcases except_bind_error h with h | ⟨_, _, h⟩
  · exact getParam_error h
  rcases except_bind_error h with h | ⟨_, _, h⟩
  · exact getParam_error h
  rcases except_bind_error h with h | ⟨_, _, h⟩
  · exact getParam_error h
  rcases except_bind_error h with h | ⟨_, _, h⟩
  · exact getParam_error h
  cases h

theorem calculate_covered_call_no_unknown (p : Params) (u r : ℚ) (s : String) :
    calculate_covered_call p u r ≠ .error (.unknownStrategyType s) := by
  intro h
  unfold calculate_covered_call at h
  cases hq : coveredCallParams p u with
  | error e =>
      rw [hq] at h
      cases h
      obtain ⟨t, ht⟩ := coveredCallParams_error hq
      cases ht
  | ok ps =>
      rw [hq] at h
      cases h

theorem calculate_bull_call_spread_no_unknown (p : Params) (u r : ℚ) (s : String) :
    calculate_bull_call_spread p u r ≠ .error (.unknownStrategyType s) := by
  intro h
  unfold calculate_bull_call_spread at h
  cases hq : bullCallSpreadParams p u with
  | error e =>
      rw [hq] at h
      cases h
      obtain ⟨t, ht⟩ := bullCallSpreadParams_error hq
      cases ht
  | ok ps =>
      rw [hq] at h
      cases h

theorem calculate_iron_condor_no_unknown (p : Params) (u r : ℚ) (s : String) :
    calculate_iron_condor p u r ≠ .error (.unknownStrategyType s) := by
  intro h
  unfold calculate_iron_condor at h
  cases hq : ironCondorParams p u with
  | error e =>
      rw [hq] at h
      cases h
      obtain ⟨t, ht⟩ := ironCondorParams_error hq
      cases ht
  | ok ps =>
      rw [hq] at h
      cases h

theorem calculate_long_straddle_no_unknown (p : Params) (u r : ℚ) (s : String) :
    calculate_long_straddle p u r ≠ .error (.unknownStrategyType s) := by
  intro h
  unfold calculate_long_straddle at h
  cases hq : longStraddleParams p u with
  | error e =>
      rw [hq] at h
      cases h
      obtain ⟨t, ht⟩ := longStraddleParams_error hq
      cases ht
  | ok ps =>
      rw [hq] at h
      cases h

theorem calculate_protective_put_no_unknown (p : Params) (u r : ℚ) (s : String) :
    calculate_protective_put p u r ≠ .error (.unknownStrategyType s) := by
  intro h
  unfold calculate_protective_put at h
  cases hq : protectivePutParams p u with
  | error e =>
      rw [hq] at h
      cases h
      obtain ⟨t, ht⟩ := protectivePutParams_error hq
      cases ht
  | ok ps =>
      rw [hq] at h
      cases h

theorem calculate_butterfly_spread_no_unknown (p : Params) (u r : ℚ) (s : String) :
    calculate_butterfly_spread p u r ≠ .error (.unknownStrategyType s) := by
  intro h
  unfold calculate_butterfly_spread at h
  cases hq : butterflySpreadParams p u with
  | error e =>
      rw [hq] at h
      cases h
      obtain ⟨t, ht⟩ := butterflySpreadParams_error hq
      cases ht
  | ok ps =>
      rw [hq] at h
      cases h

/-- C6: for any `strategyType` outside the seven known identifiers,
`calculate_payoff` fails with the `"Unknown strategy type: ..."` error
naming the offending value and returns no curve; none of the seven known
identifiers can produce that error. -/
theorem C6_unknown_strategy (st : String) (p : Option Params) (u r : ℚ)
    (legs : Option (List Leg)) (hst : st ∉ knownStrategyTypes) :
    (calculate_payoff st p u r legs = .error (.unknownStrategyType st) ∧
     (CalcError.unknownStrategyType st).message = "Unknown strategy type: " ++ st) ∧
    (∀ st2 ∈ knownStrategyTypes, ∀ (p2 : Option Params) (legs2 : Option (List Leg))
      (s : String),
      calculate_payoff st2 p2 u r legs2 ≠ .error (.unknownStrategyType s)) := by
  constructor
  · constructor
    · simp only [knownStrategyTypes, List.mem_cons, List.not_mem_nil, or_false] at hst
      push_neg at hst
      obtain ⟨h1, h2, h3, h4, h5, h6, h7⟩ := hst
      simp only [calculate_payoff]
      rw [if_neg h7, if_neg h1, if_neg h2, if_neg h3, if_neg h4, if_neg h5, if_neg h6]
    · rfl
  · intro st2 hmem p2 legs2 s h
    simp only [knownStrategyTypes, List.mem_cons, List.not_mem_nil, or_false] at hmem
    rcases hmem with rfl | rfl | rfl | rfl | rfl | rfl | rfl
    · have hred : calculate_payoff "covered-call" p2 u r legs2 =
          calculate_covered_call (p2.getD []) u r := rfl
      rw [hred] at h
      exact calculate_covered_call_no_unknown _ _ _ s h
    · have hred : calculate_payoff "bull-call-spread" p2 u r legs2 =
          calculate_bull_call_spread (p2.getD []) u r := rfl
      rw [hred] at h
      exact calculate_bull_call_spread_no_unknown _ _ _ s h
    · have hred : calculate_payoff "iron-condor" p2 u r legs2 =
          calculate_iron_condor (p2.getD []) u r := rfl
      rw [hred] at h
      exact calculate_iron_condor_no_unknown _ _ _ s h
    · have hred : calculate_payoff "long-straddle" p2 u r legs2 =
          calculate_long_straddle (p2.getD []) u r := rfl
      rw [hred] at h
      exact calculate_long_straddle_no_unknown _ _ _ s h
    · have hred : calculate_payoff "protective-put" p2 u r legs2 =
          calculate_protective_put (p2.getD []) u r := rfl
      rw [hred] at h
      exact calculate_protective_put_no_unknown _ _ _ s h
    · have hred : calculate_payoff "butterfly-spread" p2 u r legs2 =
          calculate_butterfly_spread (p2.getD []) u r := rfl
      rw [hred] at h
      exact calculate_butterfly_spread_no_unknown _ _ _ s h
    · rcases legs2 with _ | l
      · cases h
      · rcases l with _ | ⟨leg, rest⟩
        · cases h
        · cases h

/-- Witness for C6 at `strategyType = "not-a-strategy"`. -/
theorem C6_unknown_strategy_witness :
    ((calculate_payoff "not-a-strategy" (some []) 100 10 none =
        .error (.unknownStrategyType "not-a-strategy") ∧
      (CalcError.unknownStrategyType "not-a-strategy").message =
        "Unknown strategy type: " ++ "not-a-strategy") ∧
    (∀ st2 ∈ knownStrategyTypes, ∀ (p2 : Option Params) (legs2 : Option (List Leg))
      (s : String),
      calculate_payoff st2 p2 100 10 legs2 ≠ .error (.unknownStrategyType s))) :=
  C6_unknown_strategy "not-a-strategy" (some []) 100 10 none (by decide)

/-- C7 counterexample: at grid cardinality `0` (< 2) the division by
`num_points - 1 = -1` is well-defined, so `calculate_price_range` returns
the empty list instead of failing with a division-by-zero error. -/
theorem C7_point_count_counterexample :
    calculate_price_range 100 10 0 = .ok [] ∧
    ¬ calculate_price_range 100 10 0 = .error .zeroDivision := by
  have h0 : calculate_price_range 100 10 0 = .ok [] := rfl
  refine ⟨h0, ?_⟩
  intro h
  rw [h0] at h
  cases h

/-- C7 (amended): the division-by-zero failure occurs exactly at
`pointCount = 1`; for `pointCount ≤ 0` the code silently returns the empty
list, and for every `pointCount ≥ 2` the division is well-defined and the
call succeeds. -/
theorem C7_point_count_amended (u r : ℚ) (m n : ℤ) (hm : m ≤ 0) (hn : 2 ≤ n) :
    calculate_price_range u r 1 = .error .zeroDivision ∧
    calculate_price_range u r m = .ok [] ∧
    ∃ l, calculate_price_range u r n = .ok l := by
  refine ⟨rfl, ?_, ?_⟩
  · have hne : ¬(m - 1 = 0) := by omega
    simp only [calculate_price_range, if_neg hne, Except.ok.injEq]
    have h0 : m.toNat = 0 := Int.toNat_of_nonpos hm
    rw [h0]
    rfl
  · have hne : ¬(n - 1 = 0) := by omega
    simp only [calculate_price_range, if_neg hne]
    exact ⟨_, rfl⟩

/-- Witness for C7's amended statement at `m = 0`, `n = 2`. -/
theorem C7_point_count_amended_witness :
    calculate_price_range 100 10 1 = .error .zeroDivision ∧
    calculate_price_range 100 10 0 = .ok [] ∧
    ∃ l, calculate_price_range 100 10 2 = .ok l :=
  C7_point_count_amended 100 10 0 2 (by norm_num) (by norm_num)

/-- C8: a successful `calculate_payoff` call with any of the six fixed
strategy identifiers returns exactly 50 points, each produced by rounding
the raw grid price and a raw per-price P&L independently to 2 decimals. -/
theorem C8_output_contract (st : String) (hst : st ∈ fixedStrategyTypes)
    (p : Option Params) (u r : ℚ) (legs : Option (List Leg))
    (l : List PayoffDataPoint)
    (h : calculate_payoff st p u r legs = .ok l) :
    l.length = 50 ∧ ∃ f : ℚ → ℚ,
      l = (price_points_50 u r).map (fun price =>
        ⟨round2 price, round2 (f price)⟩) := by
  have hmain : ∃ f : ℚ → ℚ,
      l = (price_points_50 u r).map (fun price =>
        ⟨round2 price, round2 (f price)⟩) := by
    simp only [fixedStrategyTypes, List.mem_cons, List.not_mem_nil, or_false] at hst
    rcases hst with rfl | rfl | rfl | rfl | rfl | rfl
    · have hred : calculate_payoff "covered-call" p u r legs =
          calculate_covered_call (p.getD []) u r := rfl
      rw [hred] at h
      unfold calculate_covered_call at h
      cases hq : coveredCallParams (p.getD []) u with
      | error e => rw [hq] at h; cases h
      | ok ps => rw [hq] at h; cases h; exact ⟨coveredCallPnl ps, rfl⟩
    · have hred : calculate_payoff "bull-call-spread" p u r legs =
          calculate_bull_call_spread (p.getD []) u r := rfl
      rw [hred] at h
      unfold calculate_bull_call_spread at h
      cases hq : bullCallSpreadParams (p.getD []) u with
      | error e => rw [hq] at h; cases h
      | ok ps => rw [hq] at h; cases h; exact ⟨bullCallSpreadPnl ps, rfl⟩
    · have hred : calculate_payoff "iron-condor" p u r legs =
          calculate_iron_condor (p.getD []) u r := rfl
      rw [hred] at h
      unfold calculate_iron_condor at h
      cases hq : ironCondorParams (p.getD []) u with
      | error e => rw [hq] at h; cases h
      | ok ps => rw [hq] at h; cases h; exact ⟨ironCondorPnl ps, rfl⟩
    · have hred : calculate_payoff "long-straddle" p u r legs =
          calculate_long_straddle (p.getD []) u r := rfl
      rw [hred] at h
      unfold calculate_long_straddle at h
      cases hq : longStraddleParams (p.getD []) u with
      | error e => rw [hq] at h; cases h
      | ok ps => rw [hq] at h; cases h; exact ⟨longStraddlePnl ps, rfl⟩
    · have hred : calculate_payoff "protective-put" p u r legs =
          calculate_protective_put (p.getD []) u r := rfl
      rw [hred] at h
      unfold calculate_protective_put at h
      cases hq : protectivePutParams (p.getD []) u with
      | error e => rw [hq] at h; cases h
      | ok ps => rw [hq] at h; cases h; exact ⟨protectivePutPnl ps, rfl⟩
    · have hred : calculate_payoff "butterfly-spread" p u r legs =
          calculate_butterfly_spread (p.getD []) u r := rfl
      rw [hred] at h
      unfold calculate_butterfly_spread at h
      cases hq : butterflySpreadParams (p.getD []) u with
      | error e => rw [hq] at h; cases h
      | ok ps => rw [hq] at h; cases h; exact ⟨butterflySpreadPnl ps, rfl⟩
  obtain ⟨f, hf⟩ := hmain
  refine ⟨?_, f, hf⟩
  rw [hf, List.length_map]
  exact price_points_50_length u r

/-- Witness for C8: the covered call at default parameters. -/
theorem C8_output_contract_witness :
    ("covered-call" ∈ fixedStrategyTypes) ∧
    (((price_points_50 18000 30).map (fun price =>
        (⟨round2 price,
         round2 (coveredCallPnl ⟨18000, 18000 + 500, 200, 50, 50⟩ price)⟩ :
           PayoffDataPoint))).length = 50 ∧
     ∃ f : ℚ → ℚ, (price_points_50 18000 30).map (fun price =>
        (⟨round2 price,
         round2 (coveredCallPnl ⟨18000, 18000 + 500, 200, 50, 50⟩ price)⟩ :
           PayoffDataPoint)) =
       (price_points_50 18000 30).map (fun price =>
        (⟨round2 price, round2 (f price)⟩ : PayoffDataPoint))) :=
  ⟨by decide,
   C8_output_contract "covered-call" (by decide) (some []) 18000 30 none _ rfl⟩

/-- C9 counterexample: with `futuresPrice = "abc"` the covered call fails
with the `float()` conversion error, whose message names the offending
value `'abc'` but does not mention the field name `futuresPrice`. -/
theorem C9_malformed_parameter_counterexample :
    calculate_covered_call [("futuresPrice", ParamValue.str "abc")] 18000 30 =
      .error (.couldNotConvert "abc") ∧
    (CalcError.couldNotConvert "abc").message =
      "could not convert string to float: 'abc'" ∧
    containsSeq "futuresPrice".data
      ((CalcError.couldNotConvert "abc").message).data = false := by
  refine ⟨rfl, rfl, ?_⟩
  decide

/-- C9 (amended): a parameter value that cannot be converted to a number
makes the calculation fail with the client-input `ValueError` of Python
`float()`, whose message names the offending value (not the field), and no
curve is returned. -/
theorem C9_malformed_parameter_amended (u r : ℚ) (s : String)
    (hs : parseDecimal s = none) :
    calculate_payoff "covered-call" (some [("futuresPrice", ParamValue.str s)]) u r none =
      .error (.couldNotConvert s) ∧
    (CalcError.couldNotConvert s).message =
      "could not convert string to float: '" ++ s ++ "'" := by
  constructor
  · have h1 : pythonFloat (.str s) = .error (.couldNotConvert s) := by
      simp only [pythonFloat]
      rw [hs]
    have hred : calculate_payoff "covered-call"
        (some [("futuresPrice", ParamValue.str s)]) u r none =
        calculate_covered_call [("futuresPrice", ParamValue.str s)] u r := rfl
    rw [hred]
    have h0 : getParam [("futuresPrice", ParamValue.str s)] "futuresPrice" u =
        pythonFloat (.str s) := rfl
    have h2 : coveredCallParams [("futuresPrice", ParamValue.str s)] u =
        .error (.couldNotConvert s) := by
      unfold coveredCallParams
      rw [h0, h1]
      rfl
    unfold calculate_covered_call
    rw [h2]
  · rfl

/-- Witness for C9's amended statement at `s = "abc"`. -/
theorem C9_malformed_parameter_amended_witness :
    (calculate_payoff "covered-call"
        (some [("futuresPrice", ParamValue.str "abc")]) 18000 30 none =
      .error (.couldNotConvert "abc") ∧
    (CalcError.couldNotConvert "abc").message =
      "could not convert string to float: '" ++ "abc" ++ "'") :=
  C9_malformed_parameter_amended 18000 30 "abc" rfl

/-- C10: the per-leg case analysis of the custom evaluator is total: a leg
whose type is neither `"FUT"` nor `"CE"` (including a missing type) is
priced as a PE put; any action other than `"BUY"` (including a missing
action) is priced as SELL; and a leg without `lotSize` uses lot size 0 and
contributes exactly 0. -/
theorem C10_custom_leg_totality (u price : ℚ) (leg : Leg) :
    (leg.type ≠ some "FUT" → leg.type ≠ some "CE" →
      legPnl u price leg =
        (if leg.action = some "BUY" then
          (max 0 (leg.strike.getD u - price) - leg.premium.getD 0) * leg.lotSize.getD 0
         else
          (leg.premium.getD 0 - max 0 (leg.strike.getD u - price)) * leg.lotSize.getD 0)) ∧
    (leg.action ≠ some "BUY" →
      legPnl u price leg =
        (if leg.type = some "FUT" then
          (leg.entryPrice.getD u - price) * leg.lotSize.getD 0
         else
          (leg.premium.getD 0 -
            (if leg.type = some "CE" then max 0 (price - leg.strike.getD u)
             else max 0 (leg.strike.getD u - price))) * leg.lotSize.getD 0)) ∧
    (leg.lotSize = none → legPnl u price leg = 0) := by
  refine ⟨?_, ?_, ?_⟩
  · intro ht1 ht2
    simp only [legPnl, if_neg ht1, if_neg ht2]
  · intro ha
    simp only [legPnl, if_neg ha]
  · intro hl
    simp only [legPnl, hl, Option.getD_none]
    split_ifs <;> ring

/-- Witness for C10: the all-defaults leg (every field missing). -/
theorem C10_custom_leg_totality_witness :
    (legPnl 100 120 ⟨none, none, none, none, none, none⟩ =
      (if (⟨none, none, none, none, none, none⟩ : Leg).action = some "BUY" then
        (max 0 ((⟨none, none, none, none, none, none⟩ : Leg).strike.getD 100 - 120) -
          (⟨none, none, none, none, none, none⟩ : Leg).premium.getD 0) *
            (⟨none, none, none, none, none, none⟩ : Leg).lotSize.getD 0
       else
        ((⟨none, none, none, none, none, none⟩ : Leg).premium.getD 0 -
          max 0 ((⟨none, none, none, none, none, none⟩ : Leg).strike.getD 100 - 120)) *
            (⟨none, none, none, none, none, none⟩ : Leg).lotSize.getD 0)) ∧
    (legPnl 100 120 ⟨none, none, none, none, none, none⟩ =
      (if (⟨none, none, none, none, none, none⟩ : Leg).type = some "FUT" then
        ((⟨none, none, none, none, none, none⟩ : Leg).entryPrice.getD 100 - 120) *
          (⟨none, none, none, none, none, none⟩ : Leg).lotSize.getD 0
       else
        ((⟨none, none, none, none, none, none⟩ : Leg).premium.getD 0 -
          (if (⟨none, none, none, none, none, none⟩ : Leg).type = some "CE" then
            max 0 (120 - (⟨none, none, none, none, none, none⟩ : Leg).strike.getD 100)
           else
            max 0 ((⟨none, none, none, none, none, none⟩ : Leg).strike.getD 100 - 120))) *
              (⟨none, none, none, none, none, none⟩ : Leg).lotSize.getD 0)) ∧
    legPnl 100 120 ⟨none, none, none, none, none, none⟩ = 0 :=
  ⟨(C10_custom_leg_totality 100 120 ⟨none, none, none, none, none, none⟩).1
      (by decide) (by decide),
   (C10_custom_leg_totality 100 120 ⟨none, none, none, none, none, none⟩).2.1
      (by decide),
   (C10_custom_leg_totality 100 120 ⟨none, none, none, none, none, none⟩).2.2 rfl⟩
